import Mathlib

/-!
Verification of the voice transcription application in src/app.py.

The application is a single-file Streamlit script: at startup it reads the
credential DEEPGRAM_API_KEY from the secrets store and halts with an error
banner when it is absent; the function transcribe_microphone_audio sends the
recorded audio bytes to the Deepgram speech-to-text service and extracts the
transcript from the JSON response, converting every exception into an error
banner plus a None result; the function main renders the page, shows the
transcribe button only when audio is present, and after a press shows either
the transcript with a success banner or a try-again warning.

The embedding below is shallow: JSON responses are an inductive type with
Python-style subscripting that can fail, the remote service is an oracle
parameter mapping the outbound request to either a JSON response or a raised
exception rendered as a string, Streamlit display calls are recorded as a
list of banners, and the try/except block of the Python source is the match
on the Except valued body.
-/

set_option autoImplicit false

/-- JSON values as delivered by the transcription service. -/
inductive Json where
  | null : Json
  | bool (b : Bool) : Json
  | num (n : Int) : Json
  | str (s : String) : Json
  | arr (items : List Json) : Json
  | obj (fields : List (String × Json)) : Json

/-- Python truthiness of a JSON value, used by the line `if transcript:` in main. -/
def Json.truthy : Json → Bool
  | .null => false
  | .bool b => b
  | .num n => n != 0
  | .str s => s != ""
  | .arr items => !items.isEmpty
  | .obj fields => !fields.isEmpty

/-- Python subscripting of a value by a string key, `value[key]`: a missing key
raises KeyError and a non-object raises TypeError; both are rendered as the
error string carried by Except. -/
def Json.subscriptKey : Json → String → Except String Json
  | .obj fields, key =>
    match fields.lookup key with
    | some v => Except.ok v
    | none => Except.error ("KeyError: " ++ key)
  | _, key => Except.error ("TypeError: value is not subscriptable by key " ++ key)

/-- Python subscripting of a value by an integer index, `value[i]`: an index out
of range raises IndexError and a non-list raises an error as well. -/
def Json.subscriptIdx : Json → Nat → Except String Json
  | .arr items, i =>
    match items.get? i with
    | some v => Except.ok v
    | none => Except.error "IndexError: list index out of range"
  | _, _ => Except.error "TypeError: value is not subscriptable by index"

/-- Extraction of the transcript from the service response, embedding line 59 of
src/app.py: response[results][channels][0][alternatives][0][transcript]. -/
def extractTranscript (response : Json) : Except String Json := do
  let results ← response.subscriptKey "results"
  let channels ← results.subscriptKey "channels"
  let channel0 ← channels.subscriptIdx 0
  let alternatives ← channel0.subscriptKey "alternatives"
  let alternative0 ← alternatives.subscriptIdx 0
  alternative0.subscriptKey "transcript"

/-- Audio source dictionary sent to the service: raw bytes plus MIME type,
embedding lines 39 to 42 of src/app.py. -/
structure AudioSource where
  buffer : List Nat
  mimetype : String
deriving DecidableEq

/-- Options dictionary sent to the service, embedding lines 51 to 55 of
src/app.py. -/
structure RequestOptions where
  smart_format : Bool
  model : String
  language : String
deriving DecidableEq

/-- One outbound transcription request: the source and options arguments of the
call dg_client.transcription.prerecorded on line 49 of src/app.py. -/
structure TranscriptionRequest where
  source : AudioSource
  options : RequestOptions
deriving DecidableEq

/-- The request built by transcribe_microphone_audio for given audio bytes. -/
def requestFor (audioBytes : List Nat) : TranscriptionRequest :=
  { source := { buffer := audioBytes, mimetype := "audio/webm" },
    options := { smart_format := true, model := "nova-2", language := "en-US" } }

/-- Behavior of the remote Deepgram service, as an oracle: a request yields
either a JSON response or a raised exception rendered as a string. -/
def ServiceBehavior : Type := TranscriptionRequest → Except String Json

/-- One Streamlit status banner: a call to st.info, st.success, st.warning or
st.error. The payload is the displayed value. -/
inductive Banner where
  | info (content : Json)
  | success (content : Json)
  | warning (content : Json)
  | error (content : Json)

/-- Test for an error banner. -/
def Banner.isError : Banner → Bool
  | .error _ => true
  | _ => false

/-- Test for a warning banner. -/
def Banner.isWarning : Banner → Bool
  | .warning _ => true
  | _ => false

/-- Test for a success banner. -/
def Banner.isSuccess : Banner → Bool
  | .success _ => true
  | _ => false

/-- The info banner emitted by line 44 of src/app.py before the service call. -/
def sendingBanner : Banner :=
  Banner.info (Json.str
    "Sending audio to Deepgram for transcription... This may take a moment.")

/-- The error banner emitted by line 64 of src/app.py for a caught exception e. -/
def errorBanner (e : String) : Banner :=
  Banner.error (Json.str ("Error during transcription: " ++ e))

/-- The warning banner emitted by line 106 of src/app.py for a falsy transcript. -/
def tryAgainBanner : Banner :=
  Banner.warning (Json.str
    "Transcription failed or returned no text. Please try recording again.")

/-- The success banner emitted by line 101 of src/app.py. -/
def successBanner : Banner :=
  Banner.success (Json.str "Transcription Complete!")

/-- The info banner emitted by line 108 of src/app.py when no audio is present. -/
def readyBanner : Banner :=
  Banner.info (Json.str "Ready to record! Record your voice above to get started.")

/-- The error banner emitted by lines 13 to 16 of src/app.py for a missing key. -/
def keyMissingBanner : Banner :=
  Banner.error (Json.str
    ("Deepgram API Key not found. Please set it in .streamlit/secrets.toml " ++
     "(for local) or via Streamlit Cloud secrets."))

/-- Effects of the try block body of transcribe_microphone_audio, lines 36 to 60
of src/app.py: the value returned or the exception raised, together with the
banners emitted and the requests issued before that point. -/
structure BodyRun where
  outcome : Except String Json
  banners : List Banner
  requests : List TranscriptionRequest

/-- The try block body of transcribe_microphone_audio: build the source
dictionary, emit the sending info banner, issue the one service call, and
subscript the response down to the transcript. Any step may raise. -/
def transcribeBody (service : ServiceBehavior) (audioBytes : List Nat) : BodyRun :=
  let req := requestFor audioBytes
  let sent : List Banner := [sendingBanner]
  match service req with
  | Except.error e => { outcome := Except.error e, banners := sent, requests := [req] }
  | Except.ok response =>
    match extractTranscript response with
    | Except.error e => { outcome := Except.error e, banners := sent, requests := [req] }
    | Except.ok transcript =>
      { outcome := Except.ok transcript, banners := sent, requests := [req] }

/-- Result of one call of transcribe_microphone_audio as seen by its caller:
the returned value (some transcript or none for the Python None), the banners
emitted, the requests issued, and the exception propagated to the caller when
one escapes the function. -/
structure TranscribeOutcome where
  result : Option Json
  banners : List Banner
  requests : List TranscriptionRequest
  raised : Option String

/-- Embedding of transcribe_microphone_audio, lines 24 to 65 of src/app.py: the
whole body runs inside try, and the except Exception handler turns any raised
exception into an error banner plus a returned None. -/
def transcribe_microphone_audio (service : ServiceBehavior) (audioBytes : List Nat) :
    TranscribeOutcome :=
  let run := transcribeBody service audioBytes
  match run.outcome with
  | Except.ok transcript =>
    { result := some transcript, banners := run.banners,
      requests := run.requests, raised := none }
  | Except.error e =>
    { result := none,
      banners := run.banners ++ [errorBanner e],
      requests := run.requests, raised := none }

/-- One rendered page: whether the transcribe button was rendered, the banners
shown, the requests issued during the render, the transcript value displayed by
st.info on line 104 when the success branch runs, and any exception escaping
the render. -/
structure PageRender where
  transcribeButtonRendered : Bool
  banners : List Banner
  requests : List TranscriptionRequest
  shownTranscript : Option Json
  raised : Option String

/-- Embedding of main, lines 68 to 114 of src/app.py, for one Streamlit script
run: audioInput is the value of st.audio_input (none when no audio is present)
and buttonPressed tells whether the transcribe button was pressed in this run.
Only the status banner calls st.info, st.success, st.warning and st.error are
recorded; titles, subheaders and the audio player carry no claim content. -/
def appMain (service : ServiceBehavior) (audioInput : Option (List Nat))
    (buttonPressed : Bool) : PageRender :=
  match audioInput with
  | some audioBytes =>
    if buttonPressed then
      let t := transcribe_microphone_audio service audioBytes
      if (t.result.map Json.truthy).getD false then
        { transcribeButtonRendered := true,
          banners := t.banners ++
            [successBanner, Banner.info (t.result.getD Json.null)],
          requests := t.requests,
          shownTranscript := t.result,
          raised := t.raised }
      else
        { transcribeButtonRendered := true,
          banners := t.banners ++ [tryAgainBanner],
          requests := t.requests,
          shownTranscript := none,
          raised := t.raised }
    else
      { transcribeButtonRendered := true, banners := [], requests := [],
        shownTranscript := none, raised := none }
  | none =>
    { transcribeButtonRendered := false,
      banners := [readyBanner],
      requests := [], shownTranscript := none, raised := none }

/-- Result of module initialization, lines 10 to 21 of src/app.py: either the
process halts at st.stop after the error banner, or it proceeds with the key. -/
inductive StartupResult where
  | halted (banners : List Banner)
  | started (apiKey : String)

/-- Embedding of the startup credential check, lines 10 to 17 of src/app.py:
reading a missing key from st.secrets raises KeyError, which is answered by an
error banner and st.stop before main ever renders. -/
def startup (secrets : String → Option String) : StartupResult :=
  match secrets "DEEPGRAM_API_KEY" with
  | some key => StartupResult.started key
  | none => StartupResult.halted [keyMissingBanner]

/-- Requests issued by a sequence of presses of the transcribe button on the
same audio clip: each press triggers one full script rerun of main with the
button reported pressed. The script keeps no session state, so the runs are
independent. -/
def runPresses (service : ServiceBehavior) (audioBytes : List Nat) :
    Nat → List TranscriptionRequest
  | 0 => []
  | n + 1 =>
    runPresses service audioBytes n ++ (appMain service (some audioBytes) true).requests

/-- The error and warning banners of a render, in display order. -/
def errorWarningBanners (banners : List Banner) : List Banner :=
  banners.filter fun b => b.isError || b.isWarning

/-!
Shared characterization lemmas: the outcome of transcribe_microphone_audio in
each of the three cases (service raises, subscripting raises, extraction
succeeds), and the shape of a page render after a button press.
-/

/-- When the service call raises, the except handler yields None, the sending
and error banners, the single request, and no escaping exception. -/
theorem transcribe_eq_of_service_error (service : ServiceBehavior)
    (audioBytes : List Nat) (e : String)
    (h : service (requestFor audioBytes) = Except.error e) :
    transcribe_microphone_audio service audioBytes =
      { result := none, banners := [sendingBanner, errorBanner e],
        requests := [requestFor audioBytes], raised := none } := by
  simp [transcribe_microphone_audio, transcribeBody, h]

/-- When the service responds but the transcript path is malformed, the raised
subscripting error is caught the same way. -/
theorem transcribe_eq_of_extract_error (service : ServiceBehavior)
    (audioBytes : List Nat) (response : Json) (e : String)
    (h1 : service (requestFor audioBytes) = Except.ok response)
    (h2 : extractTranscript response = Except.error e) :
    transcribe_microphone_audio service audioBytes =
      { result := none, banners := [sendingBanner, errorBanner e],
        requests := [requestFor audioBytes], raised := none } := by
  simp [transcribe_microphone_audio, transcribeBody, h1, h2]

/-- When the service responds and the transcript path is present, the extracted
value is returned unchanged. -/
theorem transcribe_eq_of_ok (service : ServiceBehavior)
    (audioBytes : List Nat) (response : Json) (t : Json)
    (h1 : service (requestFor audioBytes) = Except.ok response)
    (h2 : extractTranscript response = Except.ok t) :
    transcribe_microphone_audio service audioBytes =
      { result := some t, banners := [sendingBanner],
        requests := [requestFor audioBytes], raised := none } := by
  simp [transcribe_microphone_audio, transcribeBody, h1, h2]

/-- The requests issued by one call of transcribe_microphone_audio, whatever
the service does: exactly the one request built from the audio bytes. -/
theorem transcribe_requests_eq (service : ServiceBehavior) (audioBytes : List Nat) :
    (transcribe_microphone_audio service audioBytes).requests =
      [requestFor audioBytes] := by
  cases h1 : service (requestFor audioBytes) with
  | error e => rw [transcribe_eq_of_service_error service audioBytes e h1]
  | ok response =>
    cases h2 : extractTranscript response with
    | error e => rw [transcribe_eq_of_extract_error service audioBytes response e h1 h2]
    | ok t => rw [transcribe_eq_of_ok service audioBytes response t h1 h2]

/-- No exception escapes transcribe_microphone_audio, whatever the service does. -/
theorem transcribe_raised_eq (service : ServiceBehavior) (audioBytes : List Nat) :
    (transcribe_microphone_audio service audioBytes).raised = none := by
  cases h1 : service (requestFor audioBytes) with
  | error e => rw [transcribe_eq_of_service_error service audioBytes e h1]
  | ok response =>
    cases h2 : extractTranscript response with
    | error e => rw [transcribe_eq_of_extract_error service audioBytes response e h1 h2]
    | ok t => rw [transcribe_eq_of_ok service audioBytes response t h1 h2]

/-- Shape of a page render after a press whose transcript result is falsy
(None or empty): warning branch of lines 105 and 106 of src/app.py. -/
theorem appMain_eq_of_result_falsy (service : ServiceBehavior) (audioBytes : List Nat)
    (h : ((transcribe_microphone_audio service audioBytes).result.map Json.truthy).getD
      false = false) :
    appMain service (some audioBytes) true =
      { transcribeButtonRendered := true,
        banners := (transcribe_microphone_audio service audioBytes).banners ++
          [tryAgainBanner],
        requests := (transcribe_microphone_audio service audioBytes).requests,
        shownTranscript := none,
        raised := (transcribe_microphone_audio service audioBytes).raised } := by
  simp [appMain, h]

/-- Shape of a page render after a press whose transcript result is truthy:
success branch of lines 100 to 104 of src/app.py. -/
theorem appMain_eq_of_result_truthy (service : ServiceBehavior) (audioBytes : List Nat)
    (h : ((transcribe_microphone_audio service audioBytes).result.map Json.truthy).getD
      false = true) :
    appMain service (some audioBytes) true =
      { transcribeButtonRendered := true,
        banners := (transcribe_microphone_audio service audioBytes).banners ++
          [successBanner,
           Banner.info ((transcribe_microphone_audio service audioBytes).result.getD
             Json.null)],
        requests := (transcribe_microphone_audio service audioBytes).requests,
        shownTranscript := (transcribe_microphone_audio service audioBytes).result,
        raised := (transcribe_microphone_audio service audioBytes).raised } := by
  simp [appMain, h]

/-!
Concrete service behaviors used by the witnesses.
-/

/-- A well formed service response whose transcript is the string Hello world. -/
def sampleResponse : Json :=
  Json.obj [("results", Json.obj [("channels", Json.arr
    [Json.obj [("alternatives", Json.arr
      [Json.obj [("transcript", Json.str "Hello world.")]])]])])]

/-- A service that always answers with sampleResponse. -/
def okService : ServiceBehavior := fun _ => Except.ok sampleResponse

/-- A service that always raises. -/
def rejectService : ServiceBehavior := fun _ => Except.error "Deepgram request failed"

/-- A well formed service response whose transcript is the empty string. -/
def emptyTranscriptResponse : Json :=
  Json.obj [("results", Json.obj [("channels", Json.arr
    [Json.obj [("alternatives", Json.arr
      [Json.obj [("transcript", Json.str "")]])]])])]

/-- A service that always answers with emptyTranscriptResponse. -/
def emptyTranscriptService : ServiceBehavior := fun _ => Except.ok emptyTranscriptResponse

/-- A service that answers with a response missing the results key. -/
def malformedService : ServiceBehavior := fun _ => Except.ok (Json.obj [])

/-!
The claims.
-/

/-- C1: on a successful service call, transcribe_microphone_audio returns
exactly the string found at path results, channels index 0, alternatives
index 0, transcript of the JSON response, and the request asked for smart
formatting through the service option smart_format. -/
theorem C1_success_returns_path_transcript (service : ServiceBehavior)
    (audioBytes : List Nat) (response : Json) (t : String)
    (hresp : service (requestFor audioBytes) = Except.ok response)
    (hpath : extractTranscript response = Except.ok (Json.str t)) :
    (transcribe_microphone_audio service audioBytes).result = some (Json.str t) ∧
    (requestFor audioBytes).options.smart_format = true := by
  rw [transcribe_eq_of_ok service audioBytes response (Json.str t) hresp hpath]
  exact ⟨rfl, rfl⟩

/-- Witness for C1 on a concrete well formed response. -/
theorem C1_witness :
    (transcribe_microphone_audio okService [0, 1, 2]).result =
      some (Json.str "Hello world.") ∧
    (requestFor [0, 1, 2]).options.smart_format = true :=
  C1_success_returns_path_transcript okService [0, 1, 2] sampleResponse
    "Hello world." rfl rfl

/-- C2: every failure of the service call, a raised transport or authentication
error as well as a malformed or missing key response, is caught: the function
returns None after showing a readable error banner, issues exactly the one
request with no retry, propagates no exception, and the page run reaches the
warning state rather than crashing. -/
theorem C2_failure_caught (service : ServiceBehavior) (audioBytes : List Nat)
    (e : String)
    (hfail : service (requestFor audioBytes) = Except.error e ∨
      ∃ response, service (requestFor audioBytes) = Except.ok response ∧
        extractTranscript response = Except.error e) :
    (transcribe_microphone_audio service audioBytes).result = none ∧
    errorBanner e ∈ (transcribe_microphone_audio service audioBytes).banners ∧
    (transcribe_microphone_audio service audioBytes).requests =
      [requestFor audioBytes] ∧
    (transcribe_microphone_audio service audioBytes).raised = none ∧
    tryAgainBanner ∈ (appMain service (some audioBytes) true).banners := by
  have htr : transcribe_microphone_audio service audioBytes =
      { result := none, banners := [sendingBanner, errorBanner e],
        requests := [requestFor audioBytes], raised := none } := by
    rcases hfail with h | ⟨response, h1, h2⟩
    · exact transcribe_eq_of_service_error service audioBytes e h
    · exact transcribe_eq_of_extract_error service audioBytes response e h1 h2
  have hmain := appMain_eq_of_result_falsy service audioBytes (by rw [htr]; rfl)
  rw [hmain, htr]
  refine ⟨rfl, ?_, rfl, rfl, ?_⟩ <;> simp

/-- Witness for C2 on a service that raises and on one that answers with a
response missing the results key. -/
theorem C2_witness :
    ((transcribe_microphone_audio rejectService [5]).result = none ∧
     errorBanner "Deepgram request failed" ∈
       (transcribe_microphone_audio rejectService [5]).banners ∧
     (transcribe_microphone_audio rejectService [5]).requests = [requestFor [5]] ∧
     (transcribe_microphone_audio rejectService [5]).raised = none ∧
     tryAgainBanner ∈ (appMain rejectService (some [5]) true).banners) ∧
    ((transcribe_microphone_audio malformedService [5]).result = none ∧
     errorBanner "KeyError: results" ∈
       (transcribe_microphone_audio malformedService [5]).banners ∧
     (transcribe_microphone_audio malformedService [5]).requests = [requestFor [5]] ∧
     (transcribe_microphone_audio malformedService [5]).raised = none ∧
     tryAgainBanner ∈ (appMain malformedService (some [5]) true).banners) :=
  ⟨C2_failure_caught rejectService [5] "Deepgram request failed" (Or.inl rfl),
   C2_failure_caught malformedService [5] "KeyError: results"
     (Or.inr ⟨Json.obj [], rfl, rfl⟩)⟩

/-- C3: when the credential DEEPGRAM_API_KEY is absent from the secrets store
at startup, the process shows an error banner and halts before the main
interface renders, and when it is present startup proceeds with the key. -/
theorem C3_credential_check (secrets : String → Option String) :
    (secrets "DEEPGRAM_API_KEY" = none →
      startup secrets = StartupResult.halted [keyMissingBanner]) ∧
    (∀ key, secrets "DEEPGRAM_API_KEY" = some key →
      startup secrets = StartupResult.started key) := by
  constructor
  · intro h
    simp [startup, h]
  · intro key h
    simp [startup, h]

/-- Witness for C3 on a store without the key and a store with it. -/
theorem C3_witness :
    startup (fun _ => none) = StartupResult.halted [keyMissingBanner] ∧
    startup (fun _ => some "dg-key") = StartupResult.started "dg-key" :=
  ⟨(C3_credential_check (fun _ => none)).1 rfl,
   (C3_credential_check (fun _ => some "dg-key")).2 "dg-key" rfl⟩

/-- The banners of transcribe_microphone_audio never include a success banner:
the success banner is emitted by the caller only. -/
theorem transcribe_no_success_banner (service : ServiceBehavior) (audioBytes : List Nat) :
    (transcribe_microphone_audio service audioBytes).banners.any Banner.isSuccess =
      false := by
  cases h1 : service (requestFor audioBytes) with
  | error e =>
    rw [transcribe_eq_of_service_error service audioBytes e h1]
    simp [sendingBanner, errorBanner, Banner.isSuccess]
  | ok response =>
    cases h2 : extractTranscript response with
    | error e =>
      rw [transcribe_eq_of_extract_error service audioBytes response e h1 h2]
      simp [sendingBanner, errorBanner, Banner.isSuccess]
    | ok t =>
      rw [transcribe_eq_of_ok service audioBytes response t h1 h2]
      simp [sendingBanner, Banner.isSuccess]

/-- C4: after a transcribe action the page shows the transcript shown state,
the success banner plus the transcript displayed verbatim, exactly when the
client returned a non empty string; a None or empty string result instead
produces the try again warning. The hypothesis restricts attention to the
results the client produces against a well formed service, a string or None. -/
theorem C4_transcript_shown_iff_nonempty (service : ServiceBehavior)
    (audioBytes : List Nat)
    (hwf : (transcribe_microphone_audio service audioBytes).result = none ∨
      ∃ s, (transcribe_microphone_audio service audioBytes).result =
        some (Json.str s)) :
    ((appMain service (some audioBytes) true).banners.any Banner.isSuccess = true ↔
      ∃ s, s ≠ "" ∧
        (transcribe_microphone_audio service audioBytes).result =
          some (Json.str s)) ∧
    (∀ s, s ≠ "" →
      (transcribe_microphone_audio service audioBytes).result = some (Json.str s) →
      (appMain service (some audioBytes) true).shownTranscript = some (Json.str s) ∧
      Banner.info (Json.str s) ∈ (appMain service (some audioBytes) true).banners) ∧
    (((transcribe_microphone_audio service audioBytes).result = none ∨
      (transcribe_microphone_audio service audioBytes).result =
        some (Json.str "")) →
      (appMain service (some audioBytes) true).banners.any Banner.isSuccess = false ∧
      tryAgainBanner ∈ (appMain service (some audioBytes) true).banners) := by
  rcases hwf with hres | ⟨s, hres⟩
  · have hmain := appMain_eq_of_result_falsy service audioBytes (by rw [hres]; rfl)
    refine ⟨?_, ?_, ?_⟩
    · rw [hmain]
      simp [hres, transcribe_no_success_banner, tryAgainBanner, Banner.isSuccess]
    · intro s2 hs2 h
      rw [hres] at h
      exact absurd h (by simp)
    · intro _
      rw [hmain]
      simp [transcribe_no_success_banner, tryAgainBanner, Banner.isSuccess]
  · by_cases hs : s = ""
    · subst hs
      have hmain := appMain_eq_of_result_falsy service audioBytes
        (by rw [hres]; simp [Json.truthy])
      refine ⟨?_, ?_, ?_⟩
      · rw [hmain]
        simp [hres, transcribe_no_success_banner, tryAgainBanner, Banner.isSuccess]
      · intro s2 hs2 h
        rw [hres] at h
        simp at h
        exact absurd h.symm hs2
      · intro _
        rw [hmain]
        simp [transcribe_no_success_banner, tryAgainBanner, Banner.isSuccess]
    · have hmain := appMain_eq_of_result_truthy service audioBytes
        (by rw [hres]; simp [Json.truthy, hs])
      refine ⟨?_, ?_, ?_⟩
      · rw [hmain]
        constructor
        · intro _
          exact ⟨s, hs, hres⟩
        · intro _
          simp [successBanner, Banner.isSuccess]
      · intro s2 hs2 h
        rw [hres] at h
        simp at h
        subst h
        rw [hmain, hres]
        constructor
        · rfl
        · simp
      · intro hcontra
        rcases hcontra with h | h <;> rw [hres] at h <;> simp at h
        exact absurd h hs

/-- Witness for C4 on a service whose transcript is a non empty string. -/
theorem C4_witness :
    ((appMain okService (some [7]) true).banners.any Banner.isSuccess = true ↔
      ∃ s, s ≠ "" ∧
        (transcribe_microphone_audio okService [7]).result = some (Json.str s)) ∧
    (∀ s, s ≠ "" →
      (transcribe_microphone_audio okService [7]).result = some (Json.str s) →
      (appMain okService (some [7]) true).shownTranscript = some (Json.str s) ∧
      Banner.info (Json.str s) ∈ (appMain okService (some [7]) true).banners) ∧
    (((transcribe_microphone_audio okService [7]).result = none ∨
      (transcribe_microphone_audio okService [7]).result = some (Json.str "")) →
      (appMain okService (some [7]) true).banners.any Banner.isSuccess = false ∧
      tryAgainBanner ∈ (appMain okService (some [7]) true).banners) :=
  C4_transcript_shown_iff_nonempty okService [7] (Or.inr ⟨"Hello world.", rfl⟩)

/-- C5: when no audio input is present, the transcribe control is not rendered
and no transcription request is issued during the page run, whatever the
service would do and whatever press signal is reported. -/
theorem C5_no_audio_no_transcribe (service : ServiceBehavior) (buttonPressed : Bool) :
    (appMain service none buttonPressed).transcribeButtonRendered = false ∧
    (appMain service none buttonPressed).requests = [] :=
  ⟨rfl, rfl⟩

/-- C6: every outbound request of a call carries the raw audio bytes unchanged,
the MIME type audio/webm, and exactly the options smart_format true, model
nova-2 and language en-US. -/
theorem C6_request_payload (service : ServiceBehavior) (audioBytes : List Nat) :
    (transcribe_microphone_audio service audioBytes).requests =
      [{ source := { buffer := audioBytes, mimetype := "audio/webm" },
         options := { smart_format := true, model := "nova-2",
                      language := "en-US" } }] :=
  transcribe_requests_eq service audioBytes

/-- The requests of a page run with audio present and the button pressed:
exactly the one request for the current audio bytes. -/
theorem appMain_press_requests (service : ServiceBehavior) (audioBytes : List Nat) :
    (appMain service (some audioBytes) true).requests = [requestFor audioBytes] := by
  cases hb : ((transcribe_microphone_audio service audioBytes).result.map
      Json.truthy).getD false with
  | false => rw [appMain_eq_of_result_falsy service audioBytes hb, transcribe_requests_eq]
  | true => rw [appMain_eq_of_result_truthy service audioBytes hb, transcribe_requests_eq]

/-- C7: each press of the transcribe button on the same audio clip issues
exactly one outbound request, and a sequence of n presses issues n identical
requests built afresh from the audio bytes, with no cached result reused. -/
theorem C7_one_request_per_press (service : ServiceBehavior) (audioBytes : List Nat)
    (n : Nat) :
    (appMain service (some audioBytes) true).requests.length = 1 ∧
    runPresses service audioBytes n = List.replicate n (requestFor audioBytes) := by
  constructor
  · rw [appMain_press_requests]
    rfl
  · induction n with
    | zero => rfl
    | succ k ih =>
      rw [List.replicate_succ']
      simp only [runPresses]
      rw [ih, appMain_press_requests]

/-- No exception escapes a page run, whatever the inputs and the service. -/
theorem appMain_raised_none (service : ServiceBehavior)
    (audioInput : Option (List Nat)) (buttonPressed : Bool) :
    (appMain service audioInput buttonPressed).raised = none := by
  cases audioInput with
  | none => rfl
  | some audioBytes =>
    cases buttonPressed with
    | false => rfl
    | true =>
      cases hb : ((transcribe_microphone_audio service audioBytes).result.map
          Json.truthy).getD false with
      | false =>
        rw [appMain_eq_of_result_falsy service audioBytes hb]
        exact transcribe_raised_eq service audioBytes
      | true =>
        rw [appMain_eq_of_result_truthy service audioBytes hb]
        exact transcribe_raised_eq service audioBytes

/-- C8: with the empty recorded byte sequence the client does not fail fast but
the handled path covers the service rejection: no exception ever escapes the
page run, and when the service rejects the empty payload the page shows an
error banner and a warning banner. -/
theorem C8_empty_audio_handled (service : ServiceBehavior) :
    (appMain service (some []) true).raised = none ∧
    (∀ e, service (requestFor []) = Except.error e →
      (appMain service (some []) true).banners.any Banner.isError = true ∧
      (appMain service (some []) true).banners.any Banner.isWarning = true) := by
  refine ⟨appMain_raised_none service (some []) true, ?_⟩
  intro e hreject
  have htr := transcribe_eq_of_service_error service [] e hreject
  have hmain := appMain_eq_of_result_falsy service [] (by rw [htr]; rfl)
  rw [hmain, htr]
  constructor <;>
    simp [sendingBanner, errorBanner, tryAgainBanner, Banner.isError, Banner.isWarning]

/-- Witness for C8 on a service that rejects every request. -/
theorem C8_witness :
    (appMain rejectService (some []) true).raised = none ∧
    (appMain rejectService (some []) true).banners.any Banner.isError = true ∧
    (appMain rejectService (some []) true).banners.any Banner.isWarning = true :=
  ⟨(C8_empty_audio_handled rejectService).1,
   (C8_empty_audio_handled rejectService).2 "Deepgram request failed" rfl⟩

/-- C9: transcribe_microphone_audio is total at its interface: whatever the
service does with whatever audio bytes, the call returns a value, some
transcript or None, and propagates no exception to its caller, because the
whole body runs inside the catch all except handler. -/
theorem C9_total_interface (service : ServiceBehavior) (audioBytes : List Nat) :
    (transcribe_microphone_audio service audioBytes).raised = none ∧
    ((transcribe_microphone_audio service audioBytes).result = none ∨
      ∃ t, (transcribe_microphone_audio service audioBytes).result = some t) := by
  refine ⟨transcribe_raised_eq service audioBytes, ?_⟩
  cases h : (transcribe_microphone_audio service audioBytes).result with
  | none => exact Or.inl rfl
  | some t => exact Or.inr ⟨t, rfl⟩

/-- C10: a caught service exception yields two banners for the one failure, the
error banner carrying the exception text followed by the try again warning,
while a successful call whose transcript is the empty string yields only the
warning and no error banner. -/
theorem C10_banner_pairs (service : ServiceBehavior) (audioBytes : List Nat)
    (e : String) (response : Json) :
    (service (requestFor audioBytes) = Except.error e →
      errorWarningBanners (appMain service (some audioBytes) true).banners =
        [errorBanner e, tryAgainBanner]) ∧
    (service (requestFor audioBytes) = Except.ok response →
      extractTranscript response = Except.ok (Json.str "") →
      errorWarningBanners (appMain service (some audioBytes) true).banners =
        [tryAgainBanner]) := by
  constructor
  · intro h
    have htr := transcribe_eq_of_service_error service audioBytes e h
    have hmain := appMain_eq_of_result_falsy service audioBytes (by rw [htr]; rfl)
    rw [hmain, htr]
    simp [errorWarningBanners, sendingBanner, errorBanner, tryAgainBanner,
      Banner.isError, Banner.isWarning]
  · intro h1 h2
    have htr := transcribe_eq_of_ok service audioBytes response (Json.str "") h1 h2
    have hmain := appMain_eq_of_result_falsy service audioBytes
      (by rw [htr]; simp [Json.truthy])
    rw [hmain, htr]
    simp [errorWarningBanners, sendingBanner, tryAgainBanner,
      Banner.isError, Banner.isWarning]

/-- Witness for C10 on a raising service and on an empty transcript service. -/
theorem C10_witness :
    errorWarningBanners (appMain rejectService (some [3]) true).banners =
      [errorBanner "Deepgram request failed", tryAgainBanner] ∧
    errorWarningBanners (appMain emptyTranscriptService (some [3]) true).banners =
      [tryAgainBanner] :=
  ⟨(C10_banner_pairs rejectService [3] "Deepgram request failed" Json.null).1 rfl,
   (C10_banner_pairs emptyTranscriptService [3] ""
     emptyTranscriptResponse).2 rfl rfl⟩
